import Mathlib

/-!
Shallow embedding of the live buy-tracker pipeline of the repository
(src/liveBuyTracker.ts, src/feature.buyBot.ts, src/rpcAndApi.ts).

Numeric model: JS `number` values are embedded as ℚ (every value the
claims reach is a finite decimal), `BigNumber`/`bigint` raw amounts as ℤ.
`Math.round x` is `⌊x + 1/2⌋` (round half toward +∞), `Math.floor` is
`⌊·⌋`, and `bigint` division truncates toward zero (`Int.tdiv`).
External collaborators (DexScreener, Binance price feed, chain RPC,
messaging gateway) are embedded as explicit inputs: an `Option` or
`Except` value stands for the fetched result or its failure, and the
functions below compute what the handler does with that result.
-/

/-- JS `Math.round`: round half toward +∞ (liveBuyTracker.ts:273,232). -/
def jsRound (x : ℚ) : ℤ := ⌊x + 1/2⌋

/-- `ethers.utils.formatUnits`: raw integer amount to a decimal quantity
with the given number of decimals (liveBuyTracker.ts:157,214). -/
def formatUnits (raw : ℤ) (decimals : ℕ) : ℚ := (raw : ℚ) / 10 ^ decimals

/-- Raw Swap-event payload delivered by the chain connection
(liveBuyTracker.ts:118-130): four raw in/out amounts, counterparty,
transaction hash, block number. -/
structure SwapEvent where
  amount0In : ℤ
  amount1In : ℤ
  amount0Out : ℤ
  amount1Out : ℤ
  -- the event's `to` argument (Lean reserves `to` as a token)
  toAddr : String
  txHash : String
  blockNumber : ℤ
deriving DecidableEq

/-- Result of the buy-classification step of `handleSwap`. -/
inductive ClassifyResult where
  | buy (baseIn tokenOut : ℤ)
  | notABuy
  | discarded
deriving DecidableEq

/-- JS `String.prototype.toLowerCase` restricted to the ASCII range that
addresses and URLs use, written as a structural map so the kernel can
evaluate it. -/
def lowerString (s : String) : String := ⟨s.data.map Char.toLower⟩

/-- JS `String.prototype.endsWith`, via the character lists. -/
def stringEndsWith (s suffix : String) : Bool :=
  List.isSuffixOf suffix.data s.data

/-- Does a pool asset address match the tracked token?  `syncListeners`
stores both pool assets lowercased (liveBuyTracker.ts:78-79) and
`handleSwap` lowercases the configured token address (line 146), so the
comparison at lines 148-149 is case-insensitive in both arguments. -/
def matchesTracked (a target : String) : Bool := lowerString a == lowerString target

/-- Base-asset-in raw amount for the pool's orientation
(liveBuyTracker.ts:152): `amount1In` when token0 is the tracked token,
else `amount0In`. -/
def classifyBaseIn (token0 target : String) (e : SwapEvent) : ℤ :=
  if matchesTracked token0 target then e.amount1In else e.amount0In

/-- Tracked-token-out raw amount for the pool's orientation
(liveBuyTracker.ts:153). -/
def classifyTokenOut (token0 target : String) (e : SwapEvent) : ℤ :=
  if matchesTracked token0 target then e.amount0Out else e.amount1Out

/-- Buy-classification step of `handleSwap` (liveBuyTracker.ts:146-155):
discard when neither pool asset is the tracked token; otherwise a buy
exactly when `baseIn > 0` and `tokenOut > 0`, else not-a-buy. -/
def classifySwap (token0 token1 target : String) (e : SwapEvent) : ClassifyResult :=
  if !matchesTracked token0 target && !matchesTracked token1 target then
    .discarded
  else
    let baseIn := classifyBaseIn token0 target e
    let tokenOut := classifyTokenOut token0 target e
    if baseIn ≤ 0 ∨ tokenOut ≤ 0 then .notABuy
    else .buy baseIn tokenOut

/-- C1: for a swap event on a pool having the tracked token as one of its
two assets (address equality, case-insensitive), classification returns a
buy signal exactly when base-asset-in and tracked-token-out are both
strictly positive; when tracked-token-out ≤ 0 or base-asset-in ≤ 0 it
returns not-a-buy; and when neither pool asset matches the tracked token
the event is discarded. -/
theorem C1_classifier_buy_iff (token0 token1 target : String) (e : SwapEvent) :
    (matchesTracked token0 target = false → matchesTracked token1 target = false →
      classifySwap token0 token1 target e = .discarded)
    ∧ (matchesTracked token0 target = true ∨ matchesTracked token1 target = true →
        (classifySwap token0 token1 target e
            = .buy (classifyBaseIn token0 target e) (classifyTokenOut token0 target e)
          ↔ 0 < classifyBaseIn token0 target e ∧ 0 < classifyTokenOut token0 target e)
        ∧ (classifyTokenOut token0 target e ≤ 0 ∨ classifyBaseIn token0 target e ≤ 0 →
            classifySwap token0 token1 target e = .notABuy)) := by
  refine ⟨fun h0 h1 => by simp [classifySwap, h0, h1], fun hm => ⟨?_, ?_⟩⟩
  · have hcond : (!matchesTracked token0 target && !matchesTracked token1 target) = false := by
      rcases hm with h | h <;> simp [h]
    constructor
    · intro hbuy
      by_contra hpos
      rw [classifySwap, hcond] at hbuy
      simp only [Bool.false_eq_true, if_false] at hbuy
      rcases not_and_or.mp hpos with h | h
      · rw [if_pos (Or.inl (not_lt.mp h))] at hbuy
        exact ClassifyResult.noConfusion hbuy
      · rw [if_pos (Or.inr (not_lt.mp h))] at hbuy
        exact ClassifyResult.noConfusion hbuy
    · intro ⟨hb, ht⟩
      rw [classifySwap, hcond]
      simp only [Bool.false_eq_true, if_false]
      rw [if_neg (by push_neg; exact ⟨hb, ht⟩)]
  · intro hle
    have hcond : (!matchesTracked token0 target && !matchesTracked token1 target) = false := by
      rcases hm with h | h <;> simp [h]
    rw [classifySwap, hcond]
    simp only [Bool.false_eq_true, if_false]
    rw [if_pos hle.symm]

/-- Concrete buy event used to witness C1: token0 is the tracked token,
base-in (`amount1In`) = 3, token-out (`amount0Out`) = 5. -/
def eBuyW : SwapEvent :=
  ⟨0, 3, 5, 0, "0xbuyer", "0xtx", 100⟩

/-- Witness for C1 at a concrete matched event with positive amounts. -/
theorem C1_classifier_witness :
    0 < classifyBaseIn "0xAA" "0xaa" eBuyW ∧ 0 < classifyTokenOut "0xAA" "0xaa" eBuyW ∧
    classifySwap "0xAA" "0xbb" "0xaa" eBuyW
      = ClassifyResult.buy (classifyBaseIn "0xAA" "0xaa" eBuyW)
          (classifyTokenOut "0xAA" "0xaa" eBuyW) := by
  refine ⟨by decide, by decide, ?_⟩
  exact ((C1_classifier_buy_iff "0xAA" "0xbb" "0xaa" eBuyW).2
    (Or.inl (by decide))).1.mpr ⟨by decide, by decide⟩

/-- Per-group configuration (feature.buyBot.ts:9-24, `BuyBotSettings`).
The dispatcher additionally reads `animationFileId` and `imageFileId`
(liveBuyTracker.ts:368,374), which the wizard's interface does not
declare; they are carried here as optional fields (`none` = JS
`undefined`, which is what the wizard-produced settings hold). -/
structure BuyBotSettings where
  chain : String
  tokenAddress : String
  pairAddress : String
  allPairAddresses : List String
  emoji : String
  imageUrl : Option String := none
  animationFileId : Option String := none
  imageFileId : Option String := none
  minBuyUsd : ℚ
  maxBuyUsd : Option ℚ := none
  dollarsPerEmoji : ℚ
  tgGroupLink : Option String := none
deriving DecidableEq

/-- JS truthiness of an optional number (`settings.maxBuyUsd &&`,
liveBuyTracker.ts:275; `settings.dollarsPerEmoji ||`, line 296):
`undefined` and `0` are falsy. -/
def jsTruthyNum : Option ℚ → Bool
  | none => false
  | some m => m != 0

/-- JS truthiness of an optional string (`settings.animationFileId`,
`settings.imageFileId`, `settings.imageUrl`, liveBuyTracker.ts:368-380):
`undefined` and the empty string are falsy. -/
def jsTruthyStr : Option String → Bool
  | none => false
  | some s => !s.isEmpty

/-- Severity tier of the alert headline. -/
inductive HeadlineTier where
  | whale
  | bigBuy
  | strongBuy
  | newBuy
deriving DecidableEq

/-- Headline tier selection (liveBuyTracker.ts:314-321): whale at
`buyUsd >= 5000`, big buy at `>= 3000`, strong buy at `>= 1000`, else
new buy. -/
def headlineTier (buyUsd : ℤ) : HeadlineTier :=
  if 5000 ≤ buyUsd then .whale
  else if 3000 ≤ buyUsd then .bigBuy
  else if 1000 ≤ buyUsd then .strongBuy
  else .newBuy

/-- Emoji-bar glyph count (liveBuyTracker.ts:294-300):
`Math.min(50, Math.floor(buyUsd / (dollarsPerEmoji || 50)))` where
`buyUsd = Math.round(usdValue)`. -/
def emojiGlyphCount (dollarsPerEmoji : ℚ) (usdValue : ℚ) : ℤ :=
  min 50 ⌊(jsRound usdValue : ℚ) / (if dollarsPerEmoji = 0 then 50 else dollarsPerEmoji)⌋

/-- The delivery medium the dispatcher hands to the messaging gateway. -/
inductive Delivery where
  | animation (src : String)
  | photo (src : String)
  | textOnly
deriving DecidableEq

/-- Media selection of the dispatcher (liveBuyTracker.ts:367-400):
uploaded animation reference first, then uploaded image reference, then
external URL (animation exactly when the lowercased URL ends in ".gif"),
else plain text. -/
def chooseDelivery (animationFileId imageFileId imageUrl : Option String) : Delivery :=
  if jsTruthyStr animationFileId then .animation (animationFileId.getD "")
  else if jsTruthyStr imageFileId then .photo (imageFileId.getD "")
  else if jsTruthyStr imageUrl then
    if stringEndsWith (lowerString (imageUrl.getD "")) ".gif" then .animation (imageUrl.getD "")
    else .photo (imageUrl.getD "")
  else .textOnly

/-- The observable shape of a dispatched alert: its headline tier, its
emoji-bar glyph count, and the chosen delivery medium. -/
structure AlertMessage where
  tier : HeadlineTier
  emojiBarCount : ℤ
  delivery : Delivery
deriving DecidableEq

/-- `sendPremiumBuyAlert` (liveBuyTracker.ts:254-405), restricted to its
observable decisions: `none` when the rounded USD value fails the
min/max filters (lines 273-275), otherwise the alert that is handed to
the messaging gateway. -/
def sendPremiumBuyAlert (s : BuyBotSettings) (usdValue : ℚ) : Option AlertMessage :=
  if (jsRound usdValue : ℚ) < s.minBuyUsd then none
  else if jsTruthyNum s.maxBuyUsd = true
      ∧ (s.maxBuyUsd.getD 0 : ℚ) < (jsRound usdValue : ℚ) then none
  else some ⟨headlineTier (jsRound usdValue), emojiGlyphCount s.dollarsPerEmoji usdValue,
    chooseDelivery s.animationFileId s.imageFileId s.imageUrl⟩

/-- Group settings used in the C2 counterexample: `minBuyUsd` 50, no
`maxBuyUsd`. -/
def s2cx : BuyBotSettings :=
  ⟨"bsc", "0xtoken", "0xpair", ["0xpair"], "G", none, none, none, 50, none, 50, none⟩

/-- C2 counterexample: the dispatcher filters on `Math.round(usdValue)`,
not on `usdValue` itself (liveBuyTracker.ts:273-274).  With
`usdValue = 49.6 < minBuyUsd = 50` the claim demands a silent drop, but
the code rounds to 50 and dispatches the alert. -/
theorem C2_filter_counterexample :
    (248/5 : ℚ) < s2cx.minBuyUsd ∧ sendPremiumBuyAlert s2cx (248/5) ≠ none := by
  have hr : jsRound (248/5 : ℚ) = 50 := by norm_num [jsRound, Int.floor_eq_iff]
  constructor
  · show (248/5 : ℚ) < 50
    norm_num
  · unfold sendPremiumBuyAlert
    rw [hr]
    norm_num [s2cx, jsTruthyNum]
    simp

/-- C2 amended: the min/max band filter is applied to the rounded USD
value `Math.round(usdValue)`: the alert is dispatched exactly when
`round(usdValue)` is at least `minBuyUsd` (boundary inclusive) and, when
`maxBuyUsd` is set (to a nonzero value), at most `maxBuyUsd`; otherwise
it is dropped silently. -/
theorem C2_filter_band_rounded (s : BuyBotSettings) (usd : ℚ) :
    ((sendPremiumBuyAlert s usd).isSome = true
      ↔ s.minBuyUsd ≤ (jsRound usd : ℚ)
        ∧ ∀ m, s.maxBuyUsd = some m → m ≠ 0 → (jsRound usd : ℚ) ≤ m)
    ∧ (sendPremiumBuyAlert s usd = none
      ↔ (jsRound usd : ℚ) < s.minBuyUsd
        ∨ ∃ m, s.maxBuyUsd = some m ∧ m ≠ 0 ∧ m < (jsRound usd : ℚ)) := by
  unfold sendPremiumBuyAlert
  rcases hmax : s.maxBuyUsd with _ | m
  · simp only [jsTruthyNum, hmax, Option.getD_none]
    split_ifs with h1 h2
    · simp [not_le.mpr h1, h1]
    · exact absurd h2.1 (by simp)
    · simp [not_lt.mp h1, h1]
  · simp only [jsTruthyNum, hmax, Option.getD_some]
    by_cases hm : m = 0
    · subst hm
      split_ifs with h1 h2
      · simp [not_le.mpr h1, h1]
      · exact absurd h2 (by simp)
      · constructor
        · constructor
          · intro _
            refine ⟨not_lt.mp h1, ?_⟩
            intro x hx hx0
            exact absurd (Option.some.inj hx).symm hx0
          · intro _
            simp
        · constructor
          · intro h
            exact absurd h (by simp)
          · rintro (h | ⟨x, hx, hx0, _⟩)
            · exact absurd h (not_lt.mpr (not_lt.mp h1))
            · exact absurd (Option.some.inj hx).symm hx0
    · have hb : (m != 0) = true := by simpa using hm
      split_ifs with h1 h2
      · constructor
        · simp [not_le.mpr h1]
        · simp [h1]
      · rcases h2 with ⟨_, hlt⟩
        constructor
        · constructor
          · intro h
            exact absurd h (by simp)
          · rintro ⟨_, hall⟩
            exact absurd (hall m rfl hm) (not_le.mpr hlt)
        · constructor
          · intro _
            exact Or.inr ⟨m, rfl, hm, hlt⟩
          · intro _
            rfl
      · have hle : (jsRound usd : ℚ) ≤ m := by
          by_contra hc
          exact h2 ⟨hb, not_le.mp hc⟩
        constructor
        · constructor
          · intro _
            refine ⟨not_lt.mp h1, ?_⟩
            intro x hx _
            rw [← Option.some.inj hx]
            exact hle
          · intro _
            simp
        · constructor
          · intro h
            exact absurd h (by simp)
          · rintro (h | ⟨x, hx, _, hlt⟩)
            · exact absurd h (not_lt.mpr (not_lt.mp h1))
            · rw [← Option.some.inj hx] at hlt
              exact absurd hlt (not_lt.mpr hle)

/-- Settings for the C2 witness: band [50, 500]. -/
def s2w : BuyBotSettings :=
  ⟨"bsc", "0xtoken", "0xpair", ["0xpair"], "G", none, none, none, 50, some 500, 50, none⟩

/-- Witness for C2 at `usdValue = 220`, inside the [50, 500] band. -/
theorem C2_filter_band_witness :
    (sendPremiumBuyAlert s2w 220).isSome = true := by
  have hr : jsRound (220 : ℚ) = 220 := by norm_num [jsRound, Int.floor_eq_iff]
  refine (C2_filter_band_rounded s2w 220).1.mpr ⟨?_, ?_⟩
  · rw [hr]
    show (50 : ℚ) ≤ 220
    norm_num
  · intro m hm hm0
    have : m = 500 := by simpa [s2w] using hm.symm
    subst this
    rw [hr]
    norm_num

/-- Pool-subscription registry step of `syncListeners`
(liveBuyTracker.ts:67-83): the pool address is lowercased (line 68), a
pool already present in the chain runtime's map is skipped (line 69),
otherwise a subscription keyed by the lowercase address is registered
(line 81).  The registry is modelled by its key set: the list of
(chain, lowercase pool address) pairs holding a PoolSubscription. -/
def ensureSubscribed (reg : List (String × String)) (chain pairAddr : String) :
    List (String × String) :=
  if (chain, lowerString pairAddr) ∈ reg then reg
  else (chain, lowerString pairAddr) :: reg

/-- C3: subscribing the same (chain, pool address) pair twice — in any
letter case — yields exactly one PoolSubscription: the second call is a
no-op, the key occurs exactly once, and one `ensureSubscribed` step
preserves the at-most-one-subscription-per-key invariant. -/
theorem C3_ensure_subscribed_once (reg : List (String × String)) (c a b : String)
    (hcase : lowerString b = lowerString a)
    (hnew : (c, lowerString a) ∉ reg) :
    ensureSubscribed (ensureSubscribed reg c a) c b = ensureSubscribed reg c a
    ∧ (ensureSubscribed (ensureSubscribed reg c a) c b).count (c, lowerString a) = 1
    ∧ ∀ k, reg.count k ≤ 1 → (ensureSubscribed reg c a).count k ≤ 1 := by
  have h1 : ensureSubscribed reg c a = (c, lowerString a) :: reg := by
    unfold ensureSubscribed
    exact if_neg hnew
  have h2 : ensureSubscribed (ensureSubscribed reg c a) c b = ensureSubscribed reg c a := by
    unfold ensureSubscribed
    rw [hcase, if_neg hnew, if_pos (List.mem_cons_self _ _)]
  refine ⟨h2, ?_, ?_⟩
  · rw [h2, h1, List.count_cons_self, List.count_eq_zero.mpr hnew]
  · intro k hk
    rw [h1]
    rcases eq_or_ne k (c, lowerString a) with h | h
    · subst h
      rw [List.count_cons_self, List.count_eq_zero.mpr hnew]
    · rw [List.count_cons_of_ne h]
      exact hk

/-- Witness for C3: the same pool address in two letter cases, starting
from an empty registry. -/
theorem C3_ensure_subscribed_witness :
    ensureSubscribed (ensureSubscribed [] "bsc" "0xAb") "bsc" "0xaB"
        = ensureSubscribed [] "bsc" "0xAb"
    ∧ (ensureSubscribed (ensureSubscribed [] "bsc" "0xAb") "bsc" "0xaB").count
        ("bsc", lowerString "0xAb") = 1 := by
  have h := C3_ensure_subscribed_once [] "bsc" "0xAb" "0xaB" (by decide) (by decide)
  exact ⟨h.1, h.2.1⟩

/-- Position-increase computation of `handleSwap`
(liveBuyTracker.ts:226-233): `currentBalance = prev + tokenOut`; when
`prevBalance > 0`, `increase = Number((diff * 1000n) / prevBalance) / 10`
(bigint division truncates toward zero) and the reported value is
`Math.round(increase)`; otherwise `null` ("no prior position"). -/
def positionIncrease (prevBalance tokenOut : ℤ) : Option ℤ :=
  if 0 < prevBalance then
    some (jsRound
      ((((prevBalance + tokenOut - prevBalance) * 1000).tdiv prevBalance : ℤ) / 10 : ℚ))
  else none

/-- The position-increase mechanism exactly as the spec words it
(spec §4.5 step 5): `round(1000 × (post − pre) / pre) / 10`, then rounded
to a whole percent — with a true rounding, not a truncation, in the
intermediate step.  Kept for comparison with `positionIncrease`. -/
def specRoundedPositionIncrease (pre post : ℚ) : ℤ :=
  jsRound ((jsRound (1000 * (post - pre) / pre) : ℚ) / 10)

/-- Dropping the tenths by flooring and then rounding half-up agrees with
rounding half-up directly: `round(⌊10x⌋/10) = round(x)`. -/
theorem jsRound_floor_tenths (x : ℚ) :
    jsRound ((⌊10 * x⌋ : ℚ) / 10) = jsRound x := by
  unfold jsRound
  apply le_antisymm
  · apply Int.floor_le_floor
    have h : (⌊10 * x⌋ : ℚ) ≤ 10 * x := Int.floor_le _
    linarith
  · apply Int.le_floor.mpr
    have h1 : ((⌊x + 1/2⌋ : ℤ) : ℚ) ≤ x + 1/2 := Int.floor_le _
    have h2 : (10 * ⌊x + 1/2⌋ - 5 : ℤ) ≤ ⌊10 * x⌋ := by
      apply Int.le_floor.mpr
      push_cast
      linarith
    have h3 : ((10 * ⌊x + 1/2⌋ - 5 : ℤ) : ℚ) ≤ (⌊10 * x⌋ : ℚ) := by
      exact_mod_cast h2
    push_cast at h3 ⊢
    linarith

/-- For positive operands the truncating bigint division is the rational
floor: `(a * 1000) tdiv b = ⌊(1000 * a : ℚ) / b⌋`. -/
theorem tdiv_eq_rat_floor (a b : ℤ) (ha : 0 ≤ a) (hb : 0 < b) :
    (a.tdiv b : ℤ) = ⌊(a : ℚ) / (b : ℚ)⌋ := by
  rw [Int.tdiv_eq_ediv ha hb.le]
  have hbn : ((b.toNat : ℕ) : ℚ) = (b : ℚ) := by
    exact_mod_cast Int.toNat_of_nonneg hb.le
  rw [← hbn, Rat.floor_intCast_div_natCast]
  congr 1
  exact (Int.toNat_of_nonneg hb.le).symm

/-- C4 counterexample: with pre-trade balance 2000 and token-out 689
(post = 2689), the code's truncating division yields
`round(⌊344.5⌋/10) = round(34.4) = 34`, while the spec's stated
mechanism `round(1000·(post−pre)/pre)/10` = `round(344.5)/10 = 34.5`
rounds to 35. -/
theorem C4_position_counterexample :
    positionIncrease 2000 689 = some 34
    ∧ specRoundedPositionIncrease 2000 2689 = 35 := by
  constructor
  · unfold positionIncrease
    rw [if_pos (by norm_num)]
    have h1 : (((2000 : ℤ) + 689 - 2000) * 1000).tdiv 2000 = 344 := by decide
    rw [h1]
    norm_num [jsRound, Int.floor_eq_iff]
  · unfold specRoundedPositionIncrease
    have h1 : jsRound (1000 * ((2689 : ℚ) - 2000) / 2000) = 345 := by
      norm_num [jsRound, Int.floor_eq_iff]
    rw [h1]
    norm_num [jsRound, Int.floor_eq_iff]

/-- C4 amended: with a zero pre-trade balance the report is "no prior
position" (`none`); with a positive pre-trade balance and positive
token-out the reported value is
`round(⌊1000 × (post − pre) / pre⌋ / 10)` — a truncating, not rounding,
intermediate division — which moreover equals the claim's headline
formula `round((post − pre)/pre × 100)`; e.g. pre = 1000, post = 1500
gives +50%. -/
theorem C4_position_increase (pre out : ℤ) :
    (pre = 0 → positionIncrease pre out = none)
    ∧ (0 < pre → 0 < out →
        positionIncrease pre out = some (jsRound ((100 * out : ℚ) / pre))) := by
  constructor
  · intro h
    subst h
    simp [positionIncrease]
  · intro hpre hout
    unfold positionIncrease
    rw [if_pos hpre]
    congr 1
    rw [show (pre + out - pre) * 1000 = out * 1000 from by ring]
    rw [tdiv_eq_rat_floor (out * 1000) pre (by positivity) hpre]
    have hx : ((out * 1000 : ℤ) : ℚ) / (pre : ℚ) = 10 * ((100 * out : ℚ) / pre) := by
      push_cast
      ring
    rw [hx, jsRound_floor_tenths]

/-- Witness for C4 at the spec's own example: pre-trade balance 1000,
token-out 500 (post-trade 1500), reported increase +50%. -/
theorem C4_position_increase_witness :
    positionIncrease 1000 500 = some (jsRound ((100 * (500 : ℤ) : ℚ) / (1000 : ℤ)))
    ∧ jsRound ((100 * (500 : ℤ) : ℚ) / (1000 : ℤ)) = 50
    ∧ positionIncrease 0 500 = none := by
  refine ⟨(C4_position_increase 1000 500).2 (by norm_num) (by norm_num), ?_,
    (C4_position_increase 0 500).1 rfl⟩
  norm_num [jsRound, Int.floor_eq_iff]

/-- Group settings for the C5 counterexample: `minBuyUsd` 0,
`dollarsPerEmoji` 50, no media. -/
def s5cx : BuyBotSettings :=
  ⟨"bsc", "0xtoken", "0xpair", ["0xpair"], "G", none, none, none, 0, none, 50, none⟩

/-- C5 counterexample: the emoji bar is sized from the rounded USD value
(`buyUsd = Math.round(usdValue)`, liveBuyTracker.ts:273,295), not from
`usdValue`.  At `usdValue = 249.5`, `dollarsPerEmoji = 50` the dispatched
alert carries ⌊250/50⌋ = 5 glyphs, while the claim's formula
`min(50, ⌊usdValue/dollarsPerEmoji⌋)` gives 4. -/
theorem C5_emoji_counterexample :
    sendPremiumBuyAlert s5cx (499/2)
        = some ⟨HeadlineTier.newBuy, 5, Delivery.textOnly⟩
    ∧ min 50 ⌊(499/2 : ℚ) / 50⌋ = 4 := by
  have hr : jsRound (499/2 : ℚ) = 250 := by norm_num [jsRound, Int.floor_eq_iff]
  constructor
  · unfold sendPremiumBuyAlert
    rw [hr, if_neg (by norm_num [s5cx]), if_neg (by simp [s5cx, jsTruthyNum])]
    have ht : headlineTier 250 = HeadlineTier.newBuy := by decide
    have he : emojiGlyphCount s5cx.dollarsPerEmoji (499/2) = 5 := by
      unfold emojiGlyphCount
      rw [hr, if_neg (by norm_num [s5cx])]
      have : ⌊((250 : ℤ) : ℚ) / s5cx.dollarsPerEmoji⌋ = 5 := by
        norm_num [s5cx, Int.floor_eq_iff]
      rw [this]
      decide
    rw [ht, he]
    rfl
  · have : ⌊(499/2 : ℚ) / 50⌋ = 4 := by norm_num [Int.floor_eq_iff]
    rw [this]
    decide

/-- C5 amended: for every dispatched alert the emoji-bar glyph count
equals `min(50, ⌊round(usdValue) / dollarsPerEmoji⌋)` — the rounded USD
value, not the raw one, is divided by the per-emoji dollar amount
(which the code defaults to 50 when zero/unset). -/
theorem C5_emoji_bar_rounded (s : BuyBotSettings) (usd : ℚ) (a : AlertMessage)
    (hd : s.dollarsPerEmoji ≠ 0)
    (h : sendPremiumBuyAlert s usd = some a) :
    a.emojiBarCount = min 50 ⌊(jsRound usd : ℚ) / s.dollarsPerEmoji⌋ := by
  unfold sendPremiumBuyAlert at h
  split_ifs at h with h1 h2
  rw [← Option.some.inj h]
  show emojiGlyphCount s.dollarsPerEmoji usd = _
  unfold emojiGlyphCount
  rw [if_neg hd]

/-- Group settings for the C5 witness: `minBuyUsd` 0, `dollarsPerEmoji`
50 (the spec's example). -/
def s5w : BuyBotSettings :=
  ⟨"eth", "0xtoken", "0xpair", ["0xpair"], "G", none, none, none, 0, none, 50, none⟩

/-- Witness for C5 at the spec's example `usdValue = 220`,
`dollarsPerEmoji = 50`: the dispatched alert carries 4 glyphs. -/
theorem C5_emoji_bar_witness :
    sendPremiumBuyAlert s5w 220 = some ⟨HeadlineTier.newBuy, 4, Delivery.textOnly⟩
    ∧ (AlertMessage.mk HeadlineTier.newBuy 4 Delivery.textOnly).emojiBarCount
        = min 50 ⌊(jsRound (220 : ℚ) : ℚ) / s5w.dollarsPerEmoji⌋
    ∧ (AlertMessage.mk HeadlineTier.newBuy 4 Delivery.textOnly).emojiBarCount = 4 := by
  have hr : jsRound (220 : ℚ) = 220 := by norm_num [jsRound, Int.floor_eq_iff]
  have h : sendPremiumBuyAlert s5w 220
      = some ⟨HeadlineTier.newBuy, 4, Delivery.textOnly⟩ := by
    unfold sendPremiumBuyAlert
    rw [hr, if_neg (by norm_num [s5w]), if_neg (by simp [s5w, jsTruthyNum])]
    have ht : headlineTier 220 = HeadlineTier.newBuy := by decide
    have he : emojiGlyphCount s5w.dollarsPerEmoji 220 = 4 := by
      unfold emojiGlyphCount
      rw [hr, if_neg (by norm_num [s5w])]
      have : ⌊((220 : ℤ) : ℚ) / s5w.dollarsPerEmoji⌋ = 4 := by
        norm_num [s5w, Int.floor_eq_iff]
      rw [this]
      decide
    rw [ht, he]
    rfl
  exact ⟨h, C5_emoji_bar_rounded s5w 220 _ (by norm_num [s5w]) h, rfl⟩

/-- `getBnbPrice` (liveBuyTracker.ts:414-424): the Binance BNBUSDT
ticker when reachable, the hardcoded 600 fallback otherwise. -/
def getBnbPrice (upstream : Option ℚ) : ℚ :=
  match upstream with
  | some p => p
  | none => 600

/-- `getEthPrice` (liveBuyTracker.ts:426-436): the Binance ETHUSDT
ticker when reachable, the hardcoded 3000 fallback otherwise. -/
def getEthPrice (upstream : Option ℚ) : ℚ :=
  match upstream with
  | some p => p
  | none => 3000

/-- Native-asset price selection of `handleSwap`
(liveBuyTracker.ts:206-209): the BNB price for chain "bsc"
(case-insensitive), the ETH price for every other chain. -/
def nativePriceUsd (chain : String) (upstream : Option ℚ) : ℚ :=
  if lowerString chain == "bsc" then getBnbPrice upstream else getEthPrice upstream

/-- USD value of the buy (liveBuyTracker.ts:157,211): the raw base-in
amount converted at 18 decimals, times the native USD price. -/
def usdValueOf (baseIn : ℤ) (nativePrice : ℚ) : ℚ :=
  formatUnits baseIn 18 * nativePrice

/-- C7: when the upstream price source is unreachable the native-asset
USD price is a fixed per-chain constant (600 for "bsc", 3000 for every
other chain); when it is reachable its value is passed through; and the
event's USD value is the 18-decimal base amount times the native
price. -/
theorem C7_native_price_fallback :
    ∀ (chain : String) (baseIn : ℤ) (p : ℚ),
      nativePriceUsd chain none
          = (if lowerString chain == "bsc" then 600 else 3000)
      ∧ nativePriceUsd chain (some p) = p
      ∧ usdValueOf baseIn (nativePriceUsd chain none)
          = (baseIn : ℚ) / 10 ^ 18
              * (if lowerString chain == "bsc" then 600 else 3000) := by
  intro chain baseIn p
  unfold nativePriceUsd getBnbPrice getEthPrice usdValueOf formatUnits
  cases h : lowerString chain == "bsc" <;> simp [h]

/-- The spec's end-to-end scenario USD value (spec §8): base-in = 2
native units at 18 decimals, native price $600 (the "bsc" fallback), so
`usdValue = 2 × 600 = 1200`. -/
def scenarioUsd : ℚ := usdValueOf (2 * 10 ^ 18) (nativePriceUsd "bsc" none)

/-- Group settings of the spec scenario: `minBuyUsd` 50, no max,
`dollarsPerEmoji` 50. -/
def s6w : BuyBotSettings :=
  ⟨"bsc", "0xtoken", "0xpair", ["0xpair"], "G", none, none, none, 50, none, 50, none⟩

/-- The scenario USD value evaluates to $1200. -/
theorem scenarioUsd_eq : scenarioUsd = 1200 := by
  have hc : (lowerString "bsc" == "bsc") = true := by decide
  unfold scenarioUsd usdValueOf formatUnits nativePriceUsd
  rw [hc]
  simp only [if_true]
  unfold getBnbPrice
  norm_num

/-- C6 counterexample: in the spec's scenario ($1200 buy, `minBuyUsd`
50, no max) the alert is dispatched, but its headline is the
"strong buy" tier ($1000 ≤ buyUsd < $3000, liveBuyTracker.ts:319-320),
not the "big buy" tier, whose threshold is $3000. -/
theorem C6_scenario_counterexample :
    scenarioUsd = 1200
    ∧ (sendPremiumBuyAlert s6w scenarioUsd).map AlertMessage.tier
        = some HeadlineTier.strongBuy
    ∧ HeadlineTier.strongBuy ≠ HeadlineTier.bigBuy := by
  have hr : jsRound (1200 : ℚ) = 1200 := by norm_num [jsRound, Int.floor_eq_iff]
  refine ⟨scenarioUsd_eq, ?_, by decide⟩
  rw [scenarioUsd_eq]
  unfold sendPremiumBuyAlert
  rw [hr, if_neg (by norm_num [s6w]), if_neg (by simp [s6w, jsTruthyNum])]
  have ht : headlineTier 1200 = HeadlineTier.strongBuy := by decide
  rw [ht]
  rfl

/-- C6 amended: in the spec's end-to-end scenario (usdValue $1200,
`minBuyUsd` 50, no `maxBuyUsd`), the alert is dispatched with the
"strong buy" headline tier of the escalating scale (new buy → strong
buy → big buy → whale) and an emoji bar of
`min(50, ⌊1200 / dollarsPerEmoji⌋)` glyphs. -/
theorem C6_scenario_strong_buy (s : BuyBotSettings)
    (hmin : s.minBuyUsd = 50) (hmax : s.maxBuyUsd = none)
    (hdpe : s.dollarsPerEmoji ≠ 0) :
    sendPremiumBuyAlert s scenarioUsd
      = some ⟨HeadlineTier.strongBuy, min 50 ⌊(1200 : ℚ) / s.dollarsPerEmoji⌋,
          chooseDelivery s.animationFileId s.imageFileId s.imageUrl⟩ := by
  have hr : jsRound (1200 : ℚ) = 1200 := by norm_num [jsRound, Int.floor_eq_iff]
  rw [scenarioUsd_eq]
  unfold sendPremiumBuyAlert
  rw [hr, if_neg (by rw [hmin]; norm_num), if_neg (by simp [hmax, jsTruthyNum])]
  have ht : headlineTier 1200 = HeadlineTier.strongBuy := by decide
  have he : emojiGlyphCount s.dollarsPerEmoji 1200
      = min 50 ⌊(1200 : ℚ) / s.dollarsPerEmoji⌋ := by
    unfold emojiGlyphCount
    rw [hr, if_neg hdpe]
    norm_num
  rw [ht, he]

/-- Witness for C6 with `dollarsPerEmoji` 50: the dispatched scenario
alert has the strong-buy tier and ⌊1200/50⌋ = 24 glyphs. -/
theorem C6_scenario_witness :
    sendPremiumBuyAlert s6w scenarioUsd
      = some ⟨HeadlineTier.strongBuy, min 50 ⌊(1200 : ℚ) / s6w.dollarsPerEmoji⌋,
          chooseDelivery s6w.animationFileId s6w.imageFileId s6w.imageUrl⟩
    ∧ min 50 ⌊(1200 : ℚ) / s6w.dollarsPerEmoji⌋ = 24 := by
  refine ⟨C6_scenario_strong_buy s6w rfl rfl (by norm_num [s6w]), ?_⟩
  have : ⌊(1200 : ℚ) / s6w.dollarsPerEmoji⌋ = 24 := by
    norm_num [s6w, Int.floor_eq_iff]
  rw [this]
  decide

/-- C8: the delivery medium is chosen in priority order
(liveBuyTracker.ts:367-400): uploaded animation reference first, then
uploaded image reference, then the external URL — sent as an animation
exactly when the lowercased URL ends in ".gif" — and plain text only
when no media is configured (truthy, in the JS sense). -/
theorem C8_delivery_priority (s : BuyBotSettings) (usd : ℚ) (a : AlertMessage)
    (h : sendPremiumBuyAlert s usd = some a) :
    a.delivery = chooseDelivery s.animationFileId s.imageFileId s.imageUrl
    ∧ (jsTruthyStr s.animationFileId = true →
        a.delivery = Delivery.animation (s.animationFileId.getD ""))
    ∧ (jsTruthyStr s.animationFileId = false → jsTruthyStr s.imageFileId = true →
        a.delivery = Delivery.photo (s.imageFileId.getD ""))
    ∧ (jsTruthyStr s.animationFileId = false → jsTruthyStr s.imageFileId = false →
        jsTruthyStr s.imageUrl = true →
        (a.delivery = Delivery.animation (s.imageUrl.getD "")
          ↔ stringEndsWith (lowerString (s.imageUrl.getD "")) ".gif" = true)
        ∧ (stringEndsWith (lowerString (s.imageUrl.getD "")) ".gif" = false →
            a.delivery = Delivery.photo (s.imageUrl.getD "")))
    ∧ (jsTruthyStr s.animationFileId = false → jsTruthyStr s.imageFileId = false →
        jsTruthyStr s.imageUrl = false → a.delivery = Delivery.textOnly) := by
  have hdel : a.delivery = chooseDelivery s.animationFileId s.imageFileId s.imageUrl := by
    unfold sendPremiumBuyAlert at h
    split_ifs at h
    rw [← Option.some.inj h]
  refine ⟨hdel, ?_, ?_, ?_, ?_⟩
  · intro h1
    rw [hdel]
    unfold chooseDelivery
    rw [if_pos h1]
  · intro h1 h2
    rw [hdel]
    unfold chooseDelivery
    rw [if_neg (by simp [h1]), if_pos h2]
  · intro h1 h2 h3
    rw [hdel]
    unfold chooseDelivery
    rw [if_neg (by simp [h1]), if_neg (by simp [h2]), if_pos h3]
    constructor
    · cases hg : stringEndsWith (lowerString (s.imageUrl.getD "")) ".gif" <;> simp [hg]
    · intro hg
      rw [if_neg (by simp [hg])]
  · intro h1 h2 h3
    rw [hdel]
    unfold chooseDelivery
    rw [if_neg (by simp [h1]), if_neg (by simp [h2]), if_neg (by simp [h3])]

/-- Group settings for the C8 witness: only an external URL ending in
".GIF" is configured. -/
def s8w : BuyBotSettings :=
  ⟨"bsc", "0xtoken", "0xpair", ["0xpair"], "G",
    some "https://x/a.GIF", none, none, 0, none, 50, none⟩

/-- Witness for C8: a $100 buy with only an uppercase ".GIF" URL
configured is dispatched as an animation. -/
theorem C8_delivery_witness :
    sendPremiumBuyAlert s8w 100
        = some ⟨HeadlineTier.newBuy, 2, Delivery.animation "https://x/a.GIF"⟩
    ∧ (AlertMessage.mk HeadlineTier.newBuy 2 (Delivery.animation "https://x/a.GIF")).delivery
        = Delivery.animation (s8w.imageUrl.getD "") := by
  have hr : jsRound (100 : ℚ) = 100 := by norm_num [jsRound, Int.floor_eq_iff]
  have h : sendPremiumBuyAlert s8w 100
      = some ⟨HeadlineTier.newBuy, 2, Delivery.animation "https://x/a.GIF"⟩ := by
    unfold sendPremiumBuyAlert
    rw [hr, if_neg (by norm_num [s8w]), if_neg (by simp [s8w, jsTruthyNum])]
    have ht : headlineTier 100 = HeadlineTier.newBuy := by decide
    have he : emojiGlyphCount s8w.dollarsPerEmoji 100 = 2 := by
      unfold emojiGlyphCount
      rw [hr, if_neg (by norm_num [s8w])]
      have : ⌊((100 : ℤ) : ℚ) / s8w.dollarsPerEmoji⌋ = 2 := by
        norm_num [s8w, Int.floor_eq_iff]
      rw [this]
      decide
    have hc : chooseDelivery s8w.animationFileId s8w.imageFileId s8w.imageUrl
        = Delivery.animation "https://x/a.GIF" := by decide
    rw [ht, he, hc]
  refine ⟨h, ?_⟩
  exact ((C8_delivery_priority s8w 100 _ h).2.2.2.1 (by decide) (by decide)
    (by decide)).1.mpr (by decide)

/-- `getPreviousBalance` (liveBuyTracker.ts:439-462): 0 when no chain
runtime exists, 0 when the historical `balanceOf` RPC call throws, the
returned balance otherwise. -/
def getPreviousBalance (runtimeExists : Bool) (rpcResult : Except Unit ℤ) : ℤ :=
  if !runtimeExists then 0
  else
    match rpcResult with
    | .error _ => 0
    | .ok b => b

/-- C9: a failed historical balance lookup (missing chain runtime or a
throwing RPC call) yields pre-trade balance 0, so `positionIncrease` is
`none` ("no prior position") — exactly the output produced for a genuine
first-time buyer — while a successful lookup passes the true balance
through. -/
theorem C9_balance_failure_reads_zero :
    ∀ (r : Except Unit ℤ) (out b : ℤ),
      getPreviousBalance false r = 0
      ∧ getPreviousBalance true (Except.error ()) = 0
      ∧ positionIncrease (getPreviousBalance false r) out = none
      ∧ positionIncrease (getPreviousBalance true (Except.error ())) out = none
      ∧ positionIncrease 0 out = none
      ∧ getPreviousBalance true (Except.ok b) = b := by
  intro r out b
  refine ⟨rfl, rfl, ?_, ?_, ?_, rfl⟩ <;> simp [getPreviousBalance, positionIncrease]

/-- The slice of a DexScreener pair response that `handleSwap` reads
(liveBuyTracker.ts:170-193). -/
structure DexPairInfo where
  baseTokenAddress : String
  baseTokenSymbol : String
  baseTokenDecimals : ℕ
  quoteTokenAddress : String
  quoteTokenSymbol : String
  quoteTokenDecimals : ℕ
  priceUsd : ℚ
  fdv : ℚ
  volumeH24 : ℚ
deriving DecidableEq

/-- The market metrics `handleSwap` derives from the DexScreener
response. -/
structure MarketInfo where
  priceUsd : ℚ
  marketCap : ℚ
  volume24h : ℚ
  tokenSymbol : String
  tokenDecimals : ℕ
deriving DecidableEq

/-- Market enrichment of `handleSwap` (liveBuyTracker.ts:160-203): on a
fetch failure or missing pair the defaults (price 0, symbol "TOKEN",
18 decimals) stand; otherwise the side whose address equals the tracked
token (case-insensitive) supplies price/symbol/decimals — inverted price
when it is the quote side — with `|| "TOKEN"` / `|| 18` fallbacks;
`fdv`/`volume.h24` are taken regardless; and a zero market cap with a
positive price is estimated as `price × 10^15` (assumed 1T supply). -/
def marketEnrich (tokenAddress : String) (dexResp : Option DexPairInfo) : MarketInfo :=
  match dexResp with
  | none => ⟨0, 0, 0, "TOKEN", 18⟩
  | some p =>
    let m :=
      if lowerString p.baseTokenAddress == lowerString tokenAddress then
        MarketInfo.mk p.priceUsd p.fdv p.volumeH24
          (if p.baseTokenSymbol.isEmpty then "TOKEN" else p.baseTokenSymbol)
          (if p.baseTokenDecimals = 0 then 18 else p.baseTokenDecimals)
      else if lowerString p.quoteTokenAddress == lowerString tokenAddress then
        MarketInfo.mk (if p.priceUsd = 0 then 0 else 1 / p.priceUsd) p.fdv p.volumeH24
          (if p.quoteTokenSymbol.isEmpty then "TOKEN" else p.quoteTokenSymbol)
          (if p.quoteTokenDecimals = 0 then 18 else p.quoteTokenDecimals)
      else MarketInfo.mk 0 p.fdv p.volumeH24 "TOKEN" 18
    if m.marketCap = 0 ∧ 0 < m.priceUsd then
      ⟨m.priceUsd, m.priceUsd * 1000000000000000, m.volume24h, m.tokenSymbol, m.tokenDecimals⟩
    else m

/-- The outbound collaborators of one `handleSwap` run, as explicit
inputs: the DexScreener lookup keyed by (chain, pair address), the
Binance native-price ticker, and the historical `balanceOf` RPC with the
chain runtime's existence. -/
structure CollabEnv where
  dex : String → String → Option DexPairInfo
  nativeUpstream : Option ℚ
  runtimeExists : Bool
  balanceOf : String → ℤ → Except Unit ℤ

/-- The enrichment payload `handleSwap` builds once per event
(liveBuyTracker.ts:26-38, `PremiumAlertData`). -/
structure PremiumAlertData where
  usdValue : ℚ
  baseAmount : ℚ
  tokenAmount : ℚ
  tokenSymbol : String
  txHash : String
  chain : String
  buyer : String
  positionIncrease : Option ℤ
  marketCap : ℚ
  volume24h : ℚ
  priceUsd : ℚ
deriving DecidableEq

/-- Classification plus enrichment of one swap event against ONE group's
settings (liveBuyTracker.ts:145-233): classification is oriented by this
group's `tokenAddress`, the market-data query uses this group's main
`pairAddress`, and the result is `none` when the event is discarded or
not a buy.  The checksum re-casing of the buyer address
(`ethers.utils.getAddress`, line 219) is a display normalization and is
not modelled. -/
def enrichForSettings (env : CollabEnv) (chain t0 t1 : String) (e : SwapEvent)
    (s : BuyBotSettings) : Option PremiumAlertData :=
  match classifySwap t0 t1 s.tokenAddress e with
  | .buy baseIn tokenOut =>
    some
      ⟨usdValueOf baseIn (nativePriceUsd chain env.nativeUpstream),
        formatUnits baseIn 18,
        formatUnits tokenOut (marketEnrich s.tokenAddress (env.dex chain s.pairAddress)).tokenDecimals,
        (marketEnrich s.tokenAddress (env.dex chain s.pairAddress)).tokenSymbol,
        e.txHash, chain, e.toAddr,
        positionIncrease
          (getPreviousBalance env.runtimeExists (env.balanceOf e.toAddr (e.blockNumber - 1)))
          tokenOut,
        (marketEnrich s.tokenAddress (env.dex chain s.pairAddress)).marketCap,
        (marketEnrich s.tokenAddress (env.dex chain s.pairAddress)).volume24h,
        (marketEnrich s.tokenAddress (env.dex chain s.pairAddress)).priceUsd⟩
  | _ => none

/-- The groups related to an incoming event
(liveBuyTracker.ts:131-142): same chain (exact equality) and the event's
pool address among the group's pool set (case-insensitive), in
registration order. -/
def relatedGroups (groups : List (ℤ × BuyBotSettings)) (chain pairAddress : String) :
    List (ℤ × BuyBotSettings) :=
  groups.filter fun g =>
    g.2.chain == chain
      && g.2.allPairAddresses.any fun p => lowerString p == lowerString pairAddress

/-- `handleSwap` end to end (liveBuyTracker.ts:118-252): collect the
related groups, classify and enrich ONCE using the first related group's
settings, then dispatch to every related group — each dispatch applies
only that group's filters/emoji/media to the one shared enrichment.  The
result lists, per related group, the group id, the shared alert data and
the per-group dispatcher outcome. -/
def handleSwap (env : CollabEnv) (groups : List (ℤ × BuyBotSettings))
    (chain pairAddress t0 t1 : String) (e : SwapEvent) :
    List (ℤ × PremiumAlertData × Option AlertMessage) :=
  match relatedGroups groups chain pairAddress with
  | [] => []
  | g0 :: rest =>
    match enrichForSettings env chain t0 t1 e g0.2 with
    | none => []
    | some d => (g0 :: rest).map fun g => (g.1, d, sendPremiumBuyAlert g.2 d.usdValue)

/-- C10: when several groups track the same pool on one chain, a single
swap event is enriched exactly once, from the FIRST related group's
settings; every related group is dispatched to, in order, with that one
shared enrichment value, and only the per-group dispatcher
(`sendPremiumBuyAlert`, i.e. min/max filters, emoji, media) varies per
group. -/
theorem C10_shared_enrichment (env : CollabEnv) (groups : List (ℤ × BuyBotSettings))
    (chain pairAddress t0 t1 : String) (e : SwapEvent)
    (g0 : ℤ × BuyBotSettings) (rest : List (ℤ × BuyBotSettings)) (d : PremiumAlertData)
    (hrel : relatedGroups groups chain pairAddress = g0 :: rest)
    (henr : enrichForSettings env chain t0 t1 e g0.2 = some d) :
    handleSwap env groups chain pairAddress t0 t1 e
      = (g0 :: rest).map (fun g => (g.1, d, sendPremiumBuyAlert g.2 d.usdValue))
    ∧ ∀ x ∈ handleSwap env groups chain pairAddress t0 t1 e, x.2.1 = d := by
  have hmain : handleSwap env groups chain pairAddress t0 t1 e
      = (g0 :: rest).map (fun g => (g.1, d, sendPremiumBuyAlert g.2 d.usdValue)) := by
    unfold handleSwap
    rw [hrel]
    dsimp only
    rw [henr]
  refine ⟨hmain, ?_⟩
  intro x hx
  rw [hmain] at hx
  rcases List.mem_map.mp hx with ⟨g, _, hg⟩
  rw [← hg]

/-- Collaborator environment for the C10 witness: DexScreener and the
price ticker unreachable, no chain runtime, balance RPC throwing. -/
def envW : CollabEnv :=
  ⟨fun _ _ => none, none, false, fun _ _ => Except.error ()⟩

/-- First related group of the C10 witness (its settings drive the
shared enrichment). -/
def sAW : BuyBotSettings :=
  ⟨"bsc", "0xTOK", "0xpool", ["0xPool"], "G", none, none, none, 0, none, 50, none⟩

/-- Second related group of the C10 witness: tracks the same pool but
configures a different token address and stricter filters. -/
def sBW : BuyBotSettings :=
  ⟨"bsc", "0xOTHER", "0xpool2", ["0xPOOL"], "G", none, none, none, 100, none, 50, none⟩

/-- Swap event of the C10 witness. -/
def e10w : SwapEvent :=
  ⟨0, 3, 5, 0, "0xbuyer", "0xtx", 100⟩

/-- The one shared enrichment the C10 witness produces: oriented and
priced by `sAW` (the first related group), with every collaborator
falling back. -/
def dW : PremiumAlertData :=
  ⟨usdValueOf 3 (nativePriceUsd "bsc" none), formatUnits 3 18, formatUnits 5 18,
    "TOKEN", "0xtx", "bsc", "0xbuyer", none, 0, 0, 0⟩

/-- Witness for C10: two groups related to the same pool (different
letter case, different tracked token in the second) both receive the
same alert data, computed from the first group's settings; only the
per-group dispatch differs. -/
theorem C10_shared_enrichment_witness :
    handleSwap envW [(1, sAW), (2, sBW)] "bsc" "0xpool" "0xTok" "0xbase" e10w
      = [(1, dW, sendPremiumBuyAlert sAW dW.usdValue),
         (2, dW, sendPremiumBuyAlert sBW dW.usdValue)] := by
  have h := C10_shared_enrichment envW [(1, sAW), (2, sBW)] "bsc" "0xpool" "0xTok" "0xbase"
    e10w (1, sAW) [(2, sBW)] dW rfl rfl
  exact h.1
